import Mathlib

/-!
# ovn-kubernetes: node bootstrap and namespace address sets

A shallow embedding of

* `go-controller/pkg/cluster/cluster.go` (`setupOVNNode`), and
* the command expectations of `go-controller/pkg/ovn/namespace_test.go`,
  together with the namespace controller they exercise.

Go strings are Lean `String`s, a Go `error` is its message (`Option String`,
`none` for `nil`), and every external command is an explicit step on a state
of the outside world, recorded in a log of calls.
-/

namespace Cluster

/-! ## Data model of `cluster.go` -/

/-- The part of `kapi.Node` that `setupOVNNode` and its helpers read: the
object name and the status addresses as (type, address) pairs. -/
structure Node where
  Name : String
  Addresses : List (String × String)
deriving DecidableEq, Repr

/-- The fields of `config.Default` read by `setupOVNNode`. -/
structure DefaultConfig where
  EncapType : String
  EncapIP : String
  InactivityProbe : Int
  OpenFlowProbe : Int
  EncapPort : Int
deriving DecidableEq, Repr

/-- The package `config` as `setupOVNNode` sees it: the global `Default` and
the constant `DefaultEncapPort`. -/
structure Config where
  Default : DefaultConfig
  DefaultEncapPort : Int
deriving DecidableEq, Repr

/-- What a command runner returns: `(stdout, stderr, err)`. -/
structure CmdResult where
  stdout : String
  stderr : String
  err : Option String
deriving DecidableEq, Repr

/-- The calls `setupOVNNode` makes on the outside world, in the order made. -/
inductive Call where
  | RunOVSVsctl (args : List String)
  | GetNodeChassisID
  | RunOVNSbctl (args : List String)
deriving DecidableEq, Repr

/-- The functions `setupOVNNode` calls that live outside `cluster.go`
(package `util`, `net.ParseIP`, and the `%q` verb of `fmt`), over a state `σ`
of the outside world. The node readers and the parser are functions of their
argument; the command runners read and change the world. -/
structure Util (σ : Type) where
  GetNodeHostname : Node → Except String String
  GetNodeIP : Node → Except String String
  ParseIP : String → Option (List Nat)
  fmtQ : String → String
  RunOVSVsctl : List String → σ → CmdResult × σ
  GetNodeChassisID : σ → Except String String × σ
  RunOVNSbctl : List String → σ → CmdResult × σ

/-- The `%d` verb of `fmt` on an integer. -/
def fmtD (n : Int) : String := toString n

/-- What one run of `setupOVNNode` leaves behind: the returned error, the
calls made, and the state of the outside world. -/
structure Outcome (σ : Type) where
  err : Option String
  calls : List Call
  world : σ

/-- The argument list of the `util.RunOVSVsctl` call of `setupOVNNode`. -/
def ovsVsctlArgs (cfg : Config) (nodeIP nodeName : String) : List String :=
  ["set",
   "Open_vSwitch",
   ".",
   "external_ids:ovn-encap-type=" ++ cfg.Default.EncapType,
   "external_ids:ovn-encap-ip=" ++ nodeIP,
   "external_ids:ovn-remote-probe-interval=" ++ fmtD cfg.Default.InactivityProbe,
   "external_ids:ovn-openflow-probe-interval=" ++ fmtD cfg.Default.OpenFlowProbe,
   "external_ids:hostname=\"" ++ nodeName ++ "\""]

/-- The argument list of the `util.RunOVNSbctl` call of `setupOVNNode`. -/
def ovnSbctlArgs (cfg : Config) (systemID : String) : List String :=
  ["set", "encap", systemID, "options:dst_port=" ++ fmtD cfg.Default.EncapPort]

/-- The body of `setupOVNNode` from the `util.RunOVSVsctl` call on, once
`nodeName` and `nodeIP` are known. -/
def setupOVNNodeCommands {σ : Type} (U : Util σ) (cfg : Config)
    (nodeName nodeIP : String) (w : σ) : Outcome σ :=
  let vsctlArgs := ovsVsctlArgs cfg nodeIP nodeName
  let r := U.RunOVSVsctl vsctlArgs w
  match r.1.err with
  | some err =>
    { err := some ("error setting OVS external IDs: " ++ err ++ "\n  " ++ U.fmtQ r.1.stderr),
      calls := [Call.RunOVSVsctl vsctlArgs], world := r.2 }
  | none =>
    -- If EncapPort is not the default tell sbdb to use specified port.
    if cfg.Default.EncapPort ≠ cfg.DefaultEncapPort then
      let c := U.GetNodeChassisID r.2
      match c.1 with
      | .error err =>
        { err := some err,
          calls := [Call.RunOVSVsctl vsctlArgs, Call.GetNodeChassisID], world := c.2 }
      | .ok systemID =>
        let sbctlArgs := ovnSbctlArgs cfg systemID
        let q := U.RunOVNSbctl sbctlArgs c.2
        match q.1.err with
        | some errSet =>
          { err := some ("error setting OVS encap-port: " ++ errSet ++ "\n  " ++ U.fmtQ q.1.stderr),
            calls := [Call.RunOVSVsctl vsctlArgs, Call.GetNodeChassisID,
                      Call.RunOVNSbctl sbctlArgs],
            world := q.2 }
        | none =>
          { err := none,
            calls := [Call.RunOVSVsctl vsctlArgs, Call.GetNodeChassisID,
                      Call.RunOVNSbctl sbctlArgs],
            world := q.2 }
    else
      { err := none, calls := [Call.RunOVSVsctl vsctlArgs], world := r.2 }

/-- The function `setupOVNNode` of `cluster.go`. -/
def setupOVNNode {σ : Type} (U : Util σ) (cfg : Config) (node : Node) (w : σ) : Outcome σ :=
  match U.GetNodeHostname node with
  | .error err =>
    { err := some ("failed to obtain hostname from node " ++ U.fmtQ node.Name ++ ": " ++ err),
      calls := [], world := w }
  | .ok nodeName =>
    if cfg.Default.EncapIP = "" then
      match U.GetNodeIP node with
      | .error err =>
        { err := some ("failed to obtain local IP from node " ++ U.fmtQ node.Name ++ ": " ++ err),
          calls := [], world := w }
      | .ok nodeIP => setupOVNNodeCommands U cfg nodeName nodeIP w
    else
      match U.ParseIP cfg.Default.EncapIP with
      | none =>
        { err := some ("invalid encapsulation IP provided " ++ U.fmtQ cfg.Default.EncapIP),
          calls := [], world := w }
      | some _ => setupOVNNodeCommands U cfg nodeName cfg.Default.EncapIP w

/-- How the node IP of a run is chosen: the configured `EncapIP` when it is
non-empty and parses, the answer of `GetNodeIP` when it is empty. -/
def NodeIPChosen {σ : Type} (U : Util σ) (cfg : Config) (node : Node) (nodeIP : String) : Prop :=
  (cfg.Default.EncapIP = "" ∧ U.GetNodeIP node = .ok nodeIP) ∨
  (cfg.Default.EncapIP ≠ "" ∧ U.ParseIP cfg.Default.EncapIP ≠ none ∧
    nodeIP = cfg.Default.EncapIP)

/-- Whether a call is an `ovs-vsctl` invocation. -/
def Call.isVsctl : Call → Bool
  | .RunOVSVsctl _ => true
  | _ => false

/-- Whether a call is an `ovn-sbctl` invocation. -/
def Call.isSbctl : Call → Bool
  | .RunOVNSbctl _ => true
  | _ => false

/-! ### A sample outside world

A small world used to run `setupOVNNode` on concrete inputs: the node readers
scan the status addresses, the parser accepts dotted quads of decimal digits,
and the command runners fail on a world that is marked broken. -/

/-- The state of the sample world: what the runners answer, and the argument
lists of the commands that have run, oldest first. -/
structure SampleWorld where
  vsctlFails : Bool
  chassis : Option String
  sbctlFails : Bool
  ran : List (List String)
deriving DecidableEq, Repr

/-- The first address of the given type among the status addresses. -/
def findAddress (kind : String) : List (String × String) → Option String
  | [] => none
  | (k, a) :: rest => if k = kind then some a else findAddress kind rest

/-- A dotted quad of decimal numbers below 256, read off a list of characters:
`acc` is the octet being read (`none` before its first digit), `done` the
octets already read. -/
def sampleParseAux : List Char → Option Nat → List Nat → Option (List Nat)
  | [], some n, done => if done.length = 3 then some (done ++ [n]) else none
  | [], none, _ => none
  | c :: cs, acc, done =>
    if c = '.' then
      match acc with
      | some n => if done.length < 3 then sampleParseAux cs none (done ++ [n]) else none
      | none => none
    else if c.isDigit then
      let n := (acc.getD 0) * 10 + (c.toNat - '0'.toNat)
      if n < 256 then sampleParseAux cs (some n) done else none
    else none

/-- The sample outside world. -/
def sampleUtil : Util SampleWorld where
  GetNodeHostname node :=
    match findAddress "Hostname" node.Addresses with
    | some h => .ok h
    | none => .error "hostname not found"
  GetNodeIP node :=
    match findAddress "InternalIP" node.Addresses with
    | some a => .ok a
    | none => .error "IP not found"
  ParseIP s := sampleParseAux s.data none []
  fmtQ s := "\"" ++ s ++ "\""
  RunOVSVsctl args w :=
    (if w.vsctlFails then ⟨"", "ovs-vsctl: database connection failed", some "exit status 1"⟩
     else ⟨"", "", none⟩, { w with ran := w.ran ++ [args] })
  GetNodeChassisID w :=
    (match w.chassis with
     | some id => .ok id
     | none => .error "No system-id configured in the local host", w)
  RunOVNSbctl args w :=
    (if w.sbctlFails then ⟨"", "ovn-sbctl: no row", some "exit status 1"⟩
     else ⟨"", "", none⟩, { w with ran := w.ran ++ [args] })

/-- A sample node. -/
def sampleNode : Node :=
  { Name := "node1", Addresses := [("InternalIP", "10.128.1.2"), ("Hostname", "node1.local")] }

/-- A sample node without a hostname address. -/
def sampleNodeNoHostname : Node :=
  { Name := "node2", Addresses := [("InternalIP", "10.128.1.3")] }

/-- The sample configuration: no explicit encapsulation IP, default port. -/
def sampleConfig : Config :=
  { Default := { EncapType := "geneve", EncapIP := "", InactivityProbe := 100000,
                 OpenFlowProbe := 180, EncapPort := 6081 },
    DefaultEncapPort := 6081 }

/-- The sample configuration with an explicit encapsulation IP that does not
parse. -/
def sampleConfigBadIP : Config :=
  { sampleConfig with Default := { sampleConfig.Default with EncapIP := "bogus" } }

/-- The sample configuration with an explicit encapsulation IP and a tunnel
port that is not the default one. -/
def sampleConfigPort : Config :=
  { sampleConfig with
    Default := { sampleConfig.Default with EncapIP := "10.1.2.3", EncapPort := 7000 } }

/-- A sample world whose `ovs-vsctl` fails. -/
def sampleWorldBroken : SampleWorld :=
  { vsctlFails := true, chassis := some "chassis-1", sbctlFails := false, ran := [] }

/-- A sample world whose `ovn-sbctl` fails. -/
def sampleWorldSbctlFails : SampleWorld :=
  { vsctlFails := false, chassis := some "chassis-1", sbctlFails := true, ran := [] }

/-- A healthy sample world. -/
def sampleWorld : SampleWorld :=
  { vsctlFails := false, chassis := some "chassis-1", sbctlFails := false, ran := [] }

end Cluster

namespace Ovn

/-! ## Address-set naming -/

/-- The UTF-8 bytes of a name. -/
def utf8Bytes (name : String) : List Nat :=
  (name.data.flatMap String.utf8EncodeChar).map UInt8.toNat

/-- The 64-bit FNV offset basis. -/
def fnvOffset64 : Nat := 14695981039346656037

/-- The 64-bit FNV prime. -/
def fnvPrime64 : Nat := 1099511628211

/-- The 64-bit FNV-1a hash of a byte sequence. -/
def fnv1a64 (bytes : List Nat) : Nat :=
  bytes.foldl (fun h b => ((h ^^^ b) * fnvPrime64) % 2 ^ 64) fnvOffset64

/-- The `width` low hexadecimal digits of `n`, most significant first. -/
def hexFixed : Nat → Nat → List Char
  | 0, _ => []
  | width + 1, n => hexFixed width (n / 16) ++ [Nat.digitChar (n % 16)]

/-- Modelled from the spec: `hashedAddressSet`, the address-set naming function
called by `namespace_test.go`, whose definition is not among the sources. The
spec asks for a pure, well-distributed hash over the UTF-8 bytes of the name,
rendered as a fixed-length identifier-safe token: here the 64-bit FNV-1a hash
of the bytes, written as the letter `a` followed by sixteen hexadecimal
digits. -/
def hashedAddressSet (name : String) : String :=
  "a" ++ String.mk (hexFixed 16 (fnv1a64 (utf8Bytes name)))

/-! ## The helpers of `namespace_test.go` -/

/-- The fields of `metav1.ObjectMeta` set by `newNamespaceMeta`. -/
structure ObjectMeta where
  UID : String
  Name : String
  Labels : List (String × String)
deriving DecidableEq, Repr

/-- The Kubernetes object `v1.Namespace` (its spec and status are empty in the
tests). -/
structure Namespace where
  ObjectMeta : ObjectMeta
deriving DecidableEq, Repr

/-- The name of a namespace object. -/
def Namespace.Name (n : Namespace) : String := n.ObjectMeta.Name

/-- The function `newNamespaceMeta` of `namespace_test.go`. -/
def newNamespaceMeta (ns : String) : ObjectMeta :=
  { UID := ns, Name := ns, Labels := [("name", ns)] }

/-- The function `newNamespace` of `namespace_test.go`. -/
def newNamespace (ns : String) : Namespace :=
  { ObjectMeta := newNamespaceMeta ns }

/-- The fields of the test pod description `pod` read by `namespace_test.go`. -/
structure TPod where
  nodeName : String
  podName : String
  podIP : String
  nsName : String
deriving DecidableEq, Repr

/-- The fields of a `v1.Pod` the namespace controller reads: the owning namespace,
the pod name and the pod IP (empty until one is assigned). -/
structure Pod where
  Namespace : String
  Name : String
  NodeName : String
  PodIP : String
deriving DecidableEq, Repr

/-- One entry of a `FakeExec`: `ovntest.ExpectedCmd` with its command line and
the output to answer. -/
structure ExpectedCmd where
  Cmd : String
  Output : String
deriving DecidableEq, Repr

/-- The expectations loaded into an `ovntest.FakeExec`, oldest first. -/
abbrev FakeExec := List ExpectedCmd

/-- Modelled from the spec: the method `AddFakeCmd` of the recording fake
(section 9; package `testing` is not among the sources): one more expected
command. -/
def FakeExec.AddFakeCmd (fexec : FakeExec) (cmd : ExpectedCmd) : FakeExec :=
  fexec ++ [cmd]

/-- Modelled from the spec: the method `AddFakeCmdsNoOutputNoError` of the
recording fake (section 9): more expected commands, each
answered with no output and no error. -/
def FakeExec.AddFakeCmdsNoOutputNoError (fexec : FakeExec) (cmds : List String) : FakeExec :=
  fexec ++ cmds.map (fun c => { Cmd := c, Output := "" })

/-- The method `namespace.baseCmds` of `namespace_test.go`. -/
def baseCmds (fexec : FakeExec) (ns : Namespace) : FakeExec :=
  (fexec.AddFakeCmd
    { Cmd := "ovn-nbctl --timeout=15 --data=bare --no-heading --columns=external_ids find address_set",
      Output := "name=" ++ ns.Name ++ "\n" }).AddFakeCmd
    { Cmd := "ovn-nbctl --timeout=15 --data=bare --no-heading --columns=_uuid find address_set name="
        ++ hashedAddressSet ns.Name,
      Output := "name=" ++ ns.Name ++ "\n" }

/-- The method `namespace.addCmds` of `namespace_test.go`. -/
def addCmds (fexec : FakeExec) (ns : Namespace) : FakeExec :=
  (baseCmds fexec ns).AddFakeCmdsNoOutputNoError
    ["ovn-nbctl --timeout=15 clear address_set " ++ hashedAddressSet ns.Name ++ " addresses"]

/-- The method `namespace.delCmds` of `namespace_test.go`. -/
def delCmds (fexec : FakeExec) (ns : Namespace) : FakeExec :=
  fexec.AddFakeCmdsNoOutputNoError
    ["ovn-nbctl --timeout=15 --if-exists destroy address_set " ++ hashedAddressSet ns.Name]

/-- The method `namespace.addCmdsWithPods` of `namespace_test.go`. -/
def addCmdsWithPods (fexec : FakeExec) (tP : TPod) (ns : Namespace) : FakeExec :=
  (baseCmds fexec ns).AddFakeCmdsNoOutputNoError
    ["ovn-nbctl --timeout=15 set address_set " ++ hashedAddressSet ns.Name ++
      " addresses=\"" ++ tP.podIP ++ "\""]

/-- The namespace object of the tests, `*newNamespace("namespace1")`. -/
def namespaceT : Namespace := newNamespace "namespace1"

/-- The pod description of the first test: pod `myPod` on `node1` with IP
`10.128.1.4` in the namespace of the test. -/
def tP : TPod :=
  { nodeName := "node1", podName := "myPod", podIP := "10.128.1.4", nsName := namespaceT.Name }

/-- The pod object the first test puts in the pod list,
`*newPod(namespaceT.Name, tP.podName, tP.nodeName, tP.podIP)`. -/
def tPod : Pod :=
  { Namespace := namespaceT.Name, Name := tP.podName, NodeName := tP.nodeName,
    PodIP := tP.podIP }

/-! ## The Command Driver -/

/-- Modelled from the spec: the address-set commands the namespace controller
issues (section 6): the two queries, create, clear, set and destroy. -/
inductive NbCmd where
  | findExternalIds
  | findUuid (hashName : String)
  | create (hashName nsName : String)
  | clear (hashName : String)
  | set (hashName : String) (ips : List String)
  | destroy (hashName : String)
deriving DecidableEq, Repr

/-- Modelled from the spec: an IP list as the `set` command writes it (section
6, a quote-delimited list): each address in double quotes, separated by
blanks. -/
def quoteIPs (ips : List String) : String :=
  "\"" ++ "\" \"".intercalate ips ++ "\""

/-- Modelled from the spec: the command line of a command, as a `FakeExec`
compares it. The lines of the two queries and of `clear`, `set` and `destroy`
are those expected by
`namespace_test.go`; the tests never expect a `create`, whose line is written
in the same grammar. -/
def NbCmd.line : NbCmd → String
  | .findExternalIds =>
    "ovn-nbctl --timeout=15 --data=bare --no-heading --columns=external_ids find address_set"
  | .findUuid h =>
    "ovn-nbctl --timeout=15 --data=bare --no-heading --columns=_uuid find address_set name=" ++ h
  | .create h ns =>
    "ovn-nbctl --timeout=15 create address_set name=" ++ h ++ " external-ids:name=" ++ ns
  | .clear h => "ovn-nbctl --timeout=15 clear address_set " ++ h ++ " addresses"
  | .set h ips => "ovn-nbctl --timeout=15 set address_set " ++ h ++ " addresses=" ++ quoteIPs ips
  | .destroy h => "ovn-nbctl --timeout=15 --if-exists destroy address_set " ++ h

/-- What the Command Driver returns: `(stdout, stderr, error)`. -/
structure ExecResult where
  stdout : String
  stderr : String
  err : Option String
deriving DecidableEq, Repr

/-- Modelled from the spec: the Command Driver (section 4.1), one synchronous
attempt per call, over a state `σ` of the external store. -/
abbrev Driver (σ : Type) := NbCmd → σ → ExecResult × σ

/-! ## The namespace controller -/

/-- Modelled from the spec: the Namespace Record (section 3). The pod
membership facts are kept per pod, as (pod name, pod IP) pairs; the flat
`podIPs` set is derived from them. -/
structure NamespaceRecord where
  name : String
  pods : List (String × String)
deriving DecidableEq, Repr

/-- Modelled from the spec: the `podIPs` set of a record, the IPs of its pods
with duplicates collapsed. -/
def NamespaceRecord.podIPs (r : NamespaceRecord) : List String :=
  (r.pods.map Prod.snd).dedup

/-- Modelled from the spec: the state of the Event Reconciler (sections 2 and
4.4), namely the records of the active namespaces, the commands issued so far
(oldest first) and the state of the external store. Errors of the driver are
only logged by the reconciler and are not kept. -/
structure Controller (σ : Type) where
  records : List NamespaceRecord
  issued : List NbCmd
  world : σ

/-- Modelled from the spec: one call of the Command Driver (section 4.1): the
command is recorded and the store moves on. -/
def Controller.exec {σ : Type} (D : Driver σ) (cmd : NbCmd) (c : Controller σ) :
    ExecResult × Controller σ :=
  ((D cmd c.world).1, { c with issued := c.issued ++ [cmd], world := (D cmd c.world).2 })

/-- Modelled from the spec: the record of a namespace, when it is active
(section 4.4; no record means `ABSENT`). -/
def Controller.findRecord {σ : Type} (c : Controller σ) (ns : String) : Option NamespaceRecord :=
  c.records.find? (fun r => r.name = ns)

/-- Modelled from the spec: the membership of a namespace as the reconciler
holds it (section 3; empty when the namespace
is not active). -/
def Controller.membership {σ : Type} (c : Controller σ) (ns : String) : List String :=
  match c.findRecord ns with
  | some r => r.podIPs
  | none => []

/-- Modelled from the spec: `ensureExists` (section 4.3) queries the store by
the hashed name and, if the set is absent (the query succeeds with an empty
answer), creates it tagged with the namespace name. -/
def ensureExists {σ : Type} (D : Driver σ) (ns : String) (c : Controller σ) : Controller σ :=
  let q := c.exec D (.findUuid (hashedAddressSet ns))
  if q.1.err = none ∧ q.1.stdout = "" then
    (q.2.exec D (.create (hashedAddressSet ns) ns)).2
  else q.2

/-- Modelled from the spec: `setMembership` (section 4.3) replaces the
membership with exactly `ips`, unconditionally; empty `ips` is written as a
`clear`. -/
def setMembership {σ : Type} (D : Driver σ) (ns : String) (ips : List String)
    (c : Controller σ) : Controller σ :=
  if ips = [] then (c.exec D (.clear (hashedAddressSet ns))).2
  else (c.exec D (.set (hashedAddressSet ns) ips)).2

/-- Modelled from the spec: `destroy` (section 4.3) removes the address set
with an existence-tolerant delete. -/
def destroy {σ : Type} (D : Driver σ) (ns : String) (c : Controller σ) : Controller σ :=
  (c.exec D (.destroy (hashedAddressSet ns))).2

/-- Modelled from the spec: the pod facts with one pod set to `ip` (section
4.4): a prior fact of that pod is
replaced. -/
def trackPod (pods : List (String × String)) (name ip : String) : List (String × String) :=
  pods.filter (fun q => q.1 ≠ name) ++ [(name, ip)]

/-- Modelled from the spec: the pod facts without those of one pod (section
4.4). -/
def untrackPod (pods : List (String × String)) (name : String) : List (String × String) :=
  pods.filter (fun q => q.1 ≠ name)

/-- Modelled from the spec: the synchronized pod facts of a namespace, from a
one-time list of the cluster's pods: the pods of the namespace that have an
IP. -/
def syncPods (ns : String) (pods : List Pod) : List (String × String) :=
  (pods.filter (fun p => p.Namespace = ns ∧ p.PodIP ≠ "")).foldl
    (fun acc p => trackPod acc p.Name p.PodIP) []

/-- Modelled from the spec: the watch events the reconciler consumes (section
4.4). A namespace add carries the pods the
cluster lists at that time. -/
inductive Event where
  | namespaceAdd (ns : String) (pods : List Pod)
  | namespaceDelete (ns : String)
  | podSet (pod : Pod)
  | podDelete (pod : Pod)
deriving DecidableEq, Repr

/-- Modelled from the spec: the records with the pod facts of namespace `ns`
changed by `f`. -/
def updatePods (records : List NamespaceRecord) (ns : String)
    (f : List (String × String) → List (String × String)) : List NamespaceRecord :=
  records.map (fun r => if r.name = ns then { r with pods := f r.pods } else r)

/-- Modelled from the spec: the transition to `ACTIVE` on a namespace add,
from the startup list or from a watch event (section 4.4): create the
record, `ensureExists`, then `setMembership` with the synchronized pod IPs. A
repeated add of an active namespace synchronizes it again. -/
def addNamespace {σ : Type} (D : Driver σ) (ns : String) (pods : List Pod)
    (c : Controller σ) : Controller σ :=
  let r : NamespaceRecord := { name := ns, pods := syncPods ns pods }
  let c1 := { c with records := c.records.filter (fun x => x.name ≠ ns) ++ [r] }
  setMembership D ns r.podIPs (ensureExists D ns c1)

/-- Modelled from the spec: the transition `ACTIVE → ABSENT` on a namespace
delete (section 4.4): `destroy`, and the record with all its pod facts is
discarded. A delete for a namespace without a record changes nothing. -/
def deleteNamespace {σ : Type} (D : Driver σ) (ns : String) (c : Controller σ) :
    Controller σ :=
  match c.findRecord ns with
  | none => c
  | some _ => destroy D ns { c with records := c.records.filter (fun x => x.name ≠ ns) }

/-- Modelled from the spec: a pod delete, or a pod update clearing its IP
(section 4.4): the fact of the pod is removed and the recomputed set is written.
Gated by the record of the namespace; a pod that is not tracked changes
nothing. -/
def removePod {σ : Type} (D : Driver σ) (ns name : String) (c : Controller σ) :
    Controller σ :=
  match c.findRecord ns with
  | none => c
  | some r =>
    if r.pods.any (fun q => q.1 = name) then
      let c1 := { c with records := updatePods c.records ns (fun ps => untrackPod ps name) }
      setMembership D ns (c1.membership ns) c1
    else c

/-- Modelled from the spec: a pod add or update (section 4.4). Gated by the
record of the namespace; an event without an IP is ignored for an untracked pod
and clears a tracked one; an IP for an untracked pod, or a changed IP, updates
the facts and writes the recomputed set; the same IP again changes nothing. -/
def setPod {σ : Type} (D : Driver σ) (p : Pod) (c : Controller σ) : Controller σ :=
  match c.findRecord p.Namespace with
  | none => c
  | some r =>
    if p.PodIP = "" then removePod D p.Namespace p.Name c
    else if (p.Name, p.PodIP) ∈ r.pods then c
    else
      let c1 := { c with
        records := updatePods c.records p.Namespace (fun ps => trackPod ps p.Name p.PodIP) }
      setMembership D p.Namespace (c1.membership p.Namespace) c1

/-- Modelled from the spec: the Event Reconciler (section 4.4), one event at a
time. -/
def handle {σ : Type} (D : Driver σ) (ev : Event) (c : Controller σ) : Controller σ :=
  match ev with
  | .namespaceAdd ns pods => addNamespace D ns pods c
  | .namespaceDelete ns => deleteNamespace D ns c
  | .podSet p => setPod D p c
  | .podDelete p => removePod D p.Namespace p.Name c

/-- A sequence of events, handled in order. -/
def handleAll {σ : Type} (D : Driver σ) (evs : List Event) (c : Controller σ) : Controller σ :=
  evs.foldl (fun acc ev => handle D ev acc) c

/-- Modelled from the spec: the start of the controller, which queries the
existing address sets by their external metadata (section 6, startup
discovery). -/
def start {σ : Type} (D : Driver σ) (w : σ) : Controller σ :=
  (({ records := [], issued := [], world := w } : Controller σ).exec D .findExternalIds).2

/-- Modelled from the spec: startup reconciliation followed by
`WatchNamespaces` (section 4.3): after the discovery query, every namespace the
cluster lists is added with the pods the cluster lists. -/
def WatchNamespaces {σ : Type} (D : Driver σ) (namespaces : List Namespace) (pods : List Pod)
    (w : σ) : Controller σ :=
  handleAll D (namespaces.map (fun n => Event.namespaceAdd n.Name pods)) (start D w)

/-- The states of a started controller: the start, and whatever follows it by
events. -/
inductive Reachable {σ : Type} (D : Driver σ) (w : σ) : Controller σ → Prop where
  | start : Reachable D w (start D w)
  | step (ev : Event) (c : Controller σ) : Reachable D w c → Reachable D w (handle D ev c)

/-! ### The recording fake of the tests -/

/-- Modelled from the spec: the state of a recording fake of the Command
Driver (section 9; `ovntest.FakeExec`, package `testing`, is not among the
sources): the expectations, how many were met, and whether a command arrived
that was not the expected one. -/
structure FakeState where
  expected : FakeExec
  executed : Nat
  unexpected : Bool
deriving DecidableEq, Repr

/-- A fresh fake loaded with expectations. -/
def FakeState.load (fexec : FakeExec) : FakeState :=
  { expected := fexec, executed := 0, unexpected := false }

/-- Modelled from the spec: the fake as a Command Driver. A command equal to
the next expectation is answered with its output; any other command is an
error. -/
def fakeDriver : Driver FakeState := fun cmd s =>
  match s.expected.get? s.executed with
  | some e =>
    if e.Cmd = cmd.line then
      ({ stdout := e.Output, stderr := "", err := none }, { s with executed := s.executed + 1 })
    else
      ({ stdout := "", stderr := "", err := some "unexpected command" },
       { s with unexpected := true })
  | none =>
    ({ stdout := "", stderr := "", err := some "unexpected command" },
     { s with unexpected := true })

/-- Modelled from the spec: the method `CalledMatchesExpected` of the recording
fake (section 9): every expectation was met, by the
commands called and no others. -/
def FakeState.CalledMatchesExpected (s : FakeState) : Bool :=
  !s.unexpected && s.executed == s.expected.length

/-- More expectations loaded into the fake of a running controller, as the
tests do between two phases. -/
def expectMore (c : Controller FakeState) (more : FakeExec → FakeExec) : Controller FakeState :=
  { c with world := { c.world with expected := more c.world.expected } }

/-! ### A reference store -/

/-- Modelled from the spec: the External Address Set Object (section 3), with
its identifier, the namespace name in its metadata and its addresses. -/
structure AddressSet where
  name : String
  nsName : String
  addresses : List String
deriving DecidableEq, Repr

/-- The external store: its address sets. -/
abbrev Store := List AddressSet

/-- The address set of a given identifier. -/
def Store.lookup (s : Store) (h : String) : Option AddressSet :=
  s.find? (fun a => a.name = h)

/-- The answer of a command that worked. -/
def okResult (out : String) : ExecResult := { stdout := out, stderr := "", err := none }

/-- The answer of a command on a set that does not exist. -/
def noRowResult : ExecResult :=
  { stdout := "", stderr := "no row in table Address_Set", err := some "exit status 1" }

/-- Modelled from the spec: a store that executes the commands (section 6).
The query by name answers a non-empty line exactly when the set exists;
`create` adds a set with no addresses unless one is there; `clear` and `set`
need the set; `destroy` tolerates its absence. -/
def storeDriver : Driver Store := fun cmd s =>
  match cmd with
  | .findExternalIds => (okResult (String.join (s.map (fun a => "name=" ++ a.nsName ++ "\n"))), s)
  | .findUuid h =>
    match s.lookup h with
    | some a => (okResult ("uuid-" ++ a.name ++ "\n"), s)
    | none => (okResult "", s)
  | .create h ns =>
    match s.lookup h with
    | some _ => (okResult "", s)
    | none => (okResult "", s ++ [{ name := h, nsName := ns, addresses := [] }])
  | .clear h =>
    match s.lookup h with
    | some _ => (okResult "", s.map (fun a => if a.name = h then { a with addresses := [] } else a))
    | none => (noRowResult, s)
  | .set h ips =>
    match s.lookup h with
    | some _ => (okResult "", s.map (fun a => if a.name = h then { a with addresses := ips } else a))
    | none => (noRowResult, s)
  | .destroy h => (okResult "", s.filter (fun a => a.name ≠ h))

end Ovn

namespace Cluster

/-! ## Properties of `setupOVNNode` -/

/-- A run of `setupOVNNode` either stops before any call, with an error and
the world untouched, or it is the command part run on a hostname and a chosen
node IP. -/
theorem setupOVNNode_split {σ : Type} (U : Util σ) (cfg : Config) (node : Node) (w : σ) :
    ((setupOVNNode U cfg node w).err ≠ none ∧ (setupOVNNode U cfg node w).calls = [] ∧
      (setupOVNNode U cfg node w).world = w ∧
      ¬ ∃ nodeName nodeIP, U.GetNodeHostname node = .ok nodeName ∧
          NodeIPChosen U cfg node nodeIP) ∨
    (∃ nodeName nodeIP, U.GetNodeHostname node = .ok nodeName ∧
        NodeIPChosen U cfg node nodeIP ∧
        setupOVNNode U cfg node w = setupOVNNodeCommands U cfg nodeName nodeIP w) := by
  unfold setupOVNNode NodeIPChosen
  cases hh : U.GetNodeHostname node with
  | error e => left; simp
  | ok nodeName =>
    by_cases hip : cfg.Default.EncapIP = ""
    · cases hg : U.GetNodeIP node with
      | error e => left; simp [hip]
      | ok nodeIP => right; exact ⟨nodeName, nodeIP, rfl, Or.inl ⟨hip, rfl⟩, by simp [hip, hg]⟩
    · cases hp : U.ParseIP cfg.Default.EncapIP with
      | none => left; simp [hip, hp]
      | some ip =>
        right
        exact ⟨nodeName, cfg.Default.EncapIP, rfl, Or.inr ⟨hip, by simp, rfl⟩,
          by simp [hip, hp]⟩

/-- The hostname and the chosen node IP of a run are unique. -/
theorem NodeIPChosen_unique {σ : Type} (U : Util σ) (cfg : Config) (node : Node)
    (a b : String) (ha : NodeIPChosen U cfg node a) (hb : NodeIPChosen U cfg node b) :
    a = b := by
  unfold NodeIPChosen at ha hb
  rcases ha with ⟨h1, h2⟩ | ⟨h1, _, h3⟩ <;> rcases hb with ⟨g1, g2⟩ | ⟨g1, _, g3⟩
  · rw [h2] at g2; injection g2
  · exact absurd h1 g1
  · exact absurd g1 h1
  · rw [h3, g3]

/-- The command part, when the `ovs-vsctl` call fails. -/
theorem setupOVNNodeCommands_vsctl_error {σ : Type} (U : Util σ) (cfg : Config)
    (nodeName nodeIP : String) (w : σ) (e : String)
    (h : (U.RunOVSVsctl (ovsVsctlArgs cfg nodeIP nodeName) w).1.err = some e) :
    setupOVNNodeCommands U cfg nodeName nodeIP w =
      { err := some ("error setting OVS external IDs: " ++ e ++ "\n  " ++
          U.fmtQ (U.RunOVSVsctl (ovsVsctlArgs cfg nodeIP nodeName) w).1.stderr),
        calls := [Call.RunOVSVsctl (ovsVsctlArgs cfg nodeIP nodeName)],
        world := (U.RunOVSVsctl (ovsVsctlArgs cfg nodeIP nodeName) w).2 } := by
  simp [setupOVNNodeCommands, h]

/-- The command part, when the `ovs-vsctl` call succeeds and the port is the
default one. -/
theorem setupOVNNodeCommands_default_port {σ : Type} (U : Util σ) (cfg : Config)
    (nodeName nodeIP : String) (w : σ)
    (h : (U.RunOVSVsctl (ovsVsctlArgs cfg nodeIP nodeName) w).1.err = none)
    (hp : cfg.Default.EncapPort = cfg.DefaultEncapPort) :
    setupOVNNodeCommands U cfg nodeName nodeIP w =
      { err := none,
        calls := [Call.RunOVSVsctl (ovsVsctlArgs cfg nodeIP nodeName)],
        world := (U.RunOVSVsctl (ovsVsctlArgs cfg nodeIP nodeName) w).2 } := by
  simp [setupOVNNodeCommands, h, hp]

/-- The command part, when the `ovs-vsctl` call succeeds, the port is not the
default one and the chassis lookup fails. -/
theorem setupOVNNodeCommands_chassis_error {σ : Type} (U : Util σ) (cfg : Config)
    (nodeName nodeIP : String) (w : σ) (e : String)
    (h : (U.RunOVSVsctl (ovsVsctlArgs cfg nodeIP nodeName) w).1.err = none)
    (hp : cfg.Default.EncapPort ≠ cfg.DefaultEncapPort)
    (hc : (U.GetNodeChassisID (U.RunOVSVsctl (ovsVsctlArgs cfg nodeIP nodeName) w).2).1
        = .error e) :
    setupOVNNodeCommands U cfg nodeName nodeIP w =
      { err := some e,
        calls := [Call.RunOVSVsctl (ovsVsctlArgs cfg nodeIP nodeName), Call.GetNodeChassisID],
        world := (U.GetNodeChassisID
          (U.RunOVSVsctl (ovsVsctlArgs cfg nodeIP nodeName) w).2).2 } := by
  simp [setupOVNNodeCommands, h, hp, hc]

/-- The command part, when the `ovs-vsctl` call succeeds, the port is not the
default one and the chassis lookup succeeds: the `ovn-sbctl` call decides. -/
theorem setupOVNNodeCommands_sbctl {σ : Type} (U : Util σ) (cfg : Config)
    (nodeName nodeIP : String) (w : σ) (systemID : String)
    (h : (U.RunOVSVsctl (ovsVsctlArgs cfg nodeIP nodeName) w).1.err = none)
    (hp : cfg.Default.EncapPort ≠ cfg.DefaultEncapPort)
    (hc : (U.GetNodeChassisID (U.RunOVSVsctl (ovsVsctlArgs cfg nodeIP nodeName) w).2).1
        = .ok systemID) :
    (setupOVNNodeCommands U cfg nodeName nodeIP w).calls =
        [Call.RunOVSVsctl (ovsVsctlArgs cfg nodeIP nodeName), Call.GetNodeChassisID,
         Call.RunOVNSbctl (ovnSbctlArgs cfg systemID)] ∧
    ((setupOVNNodeCommands U cfg nodeName nodeIP w).err = none ↔
      (U.RunOVNSbctl (ovnSbctlArgs cfg systemID)
        (U.GetNodeChassisID (U.RunOVSVsctl (ovsVsctlArgs cfg nodeIP nodeName) w).2).2).1.err
        = none) := by
  cases hq : (U.RunOVNSbctl (ovnSbctlArgs cfg systemID)
        (U.GetNodeChassisID (U.RunOVSVsctl (ovsVsctlArgs cfg nodeIP nodeName) w).2).2).1.err with
  | none => simp [setupOVNNodeCommands, h, hp, hc, hq]
  | some e => simp [setupOVNNodeCommands, h, hp, hc, hq]

/-- The command part, when the `ovs-vsctl` call succeeds, the port is not the
default one and the chassis lookup succeeds: the world is the one the
`ovn-sbctl` call leaves, and the error is its error, wrapped. -/
theorem setupOVNNodeCommands_sbctl_run {σ : Type} (U : Util σ) (cfg : Config)
    (nodeName nodeIP : String) (w : σ) (systemID : String)
    (h : (U.RunOVSVsctl (ovsVsctlArgs cfg nodeIP nodeName) w).1.err = none)
    (hp : cfg.Default.EncapPort ≠ cfg.DefaultEncapPort)
    (hc : (U.GetNodeChassisID (U.RunOVSVsctl (ovsVsctlArgs cfg nodeIP nodeName) w).2).1
        = .ok systemID) :
    (setupOVNNodeCommands U cfg nodeName nodeIP w).world =
      (U.RunOVNSbctl (ovnSbctlArgs cfg systemID)
        (U.GetNodeChassisID (U.RunOVSVsctl (ovsVsctlArgs cfg nodeIP nodeName) w).2).2).2 ∧
    (setupOVNNodeCommands U cfg nodeName nodeIP w).err =
      (U.RunOVNSbctl (ovnSbctlArgs cfg systemID)
        (U.GetNodeChassisID
          (U.RunOVSVsctl (ovsVsctlArgs cfg nodeIP nodeName) w).2).2).1.err.map
        (fun errSet => "error setting OVS encap-port: " ++ errSet ++ "\n  " ++
          U.fmtQ (U.RunOVNSbctl (ovnSbctlArgs cfg systemID)
            (U.GetNodeChassisID
              (U.RunOVSVsctl (ovsVsctlArgs cfg nodeIP nodeName) w).2).2).1.stderr) := by
  cases hq : (U.RunOVNSbctl (ovnSbctlArgs cfg systemID)
        (U.GetNodeChassisID (U.RunOVSVsctl (ovsVsctlArgs cfg nodeIP nodeName) w).2).2).1.err with
  | none => simp [setupOVNNodeCommands, h, hp, hc, hq]
  | some e => simp [setupOVNNodeCommands, h, hp, hc, hq]

/-- The command part always starts with the `ovs-vsctl` call, and makes at
most one `ovs-vsctl` and at most one `ovn-sbctl` call. -/
theorem setupOVNNodeCommands_calls {σ : Type} (U : Util σ) (cfg : Config)
    (nodeName nodeIP : String) (w : σ) :
    (∃ rest, (setupOVNNodeCommands U cfg nodeName nodeIP w).calls =
        Call.RunOVSVsctl (ovsVsctlArgs cfg nodeIP nodeName) :: rest ∧
        (rest.filter Call.isVsctl) = [] ∧ (rest.filter Call.isSbctl).length ≤ 1) := by
  cases h : (U.RunOVSVsctl (ovsVsctlArgs cfg nodeIP nodeName) w).1.err with
  | some e =>
    rw [setupOVNNodeCommands_vsctl_error U cfg nodeName nodeIP w e h]
    exact ⟨[], rfl, rfl, by simp⟩
  | none =>
    by_cases hp : cfg.Default.EncapPort = cfg.DefaultEncapPort
    · rw [setupOVNNodeCommands_default_port U cfg nodeName nodeIP w h hp]
      exact ⟨[], rfl, rfl, by simp⟩
    · cases hc : (U.GetNodeChassisID
          (U.RunOVSVsctl (ovsVsctlArgs cfg nodeIP nodeName) w).2).1 with
      | error e =>
        rw [setupOVNNodeCommands_chassis_error U cfg nodeName nodeIP w e h hp hc]
        exact ⟨[Call.GetNodeChassisID], rfl, rfl, by simp [Call.isSbctl]⟩
      | ok systemID =>
        rw [(setupOVNNodeCommands_sbctl U cfg nodeName nodeIP w systemID h hp hc).1]
        exact ⟨[Call.GetNodeChassisID, Call.RunOVNSbctl (ovnSbctlArgs cfg systemID)], rfl, rfl,
          by simp [Call.isSbctl]⟩


/-- C1: when the explicit encapsulation IP is non-empty and does not parse,
`setupOVNNode` returns a non-nil error, makes no call on the outside world (no
`ovs-vsctl`, no `ovn-sbctl`, no chassis query) and leaves the world as it was;
when the hostname lookup succeeded the error is the "invalid encapsulation IP
provided" error quoting the configured string. -/
theorem setupOVNNode_invalid_encap_ip {σ : Type} (U : Util σ) (cfg : Config) (node : Node)
    (w : σ) (hne : cfg.Default.EncapIP ≠ "") (hbad : U.ParseIP cfg.Default.EncapIP = none) :
    (setupOVNNode U cfg node w).err ≠ none ∧
    (setupOVNNode U cfg node w).calls = [] ∧
    (setupOVNNode U cfg node w).world = w ∧
    (∀ nodeName, U.GetNodeHostname node = .ok nodeName →
      (setupOVNNode U cfg node w).err =
        some ("invalid encapsulation IP provided " ++ U.fmtQ cfg.Default.EncapIP)) := by
  unfold setupOVNNode
  cases hh : U.GetNodeHostname node with
  | error e => simp
  | ok nodeName => simp [hne, hbad]

/-- C1 at a concrete input: the sample node with `EncapIP = "bogus"`. -/
theorem setupOVNNode_invalid_encap_ip_witness :
    sampleConfigBadIP.Default.EncapIP ≠ "" ∧
    sampleUtil.ParseIP sampleConfigBadIP.Default.EncapIP = none ∧
    sampleUtil.GetNodeHostname sampleNode = .ok "node1.local" ∧
    (setupOVNNode sampleUtil sampleConfigBadIP sampleNode sampleWorld).calls = [] ∧
    (setupOVNNode sampleUtil sampleConfigBadIP sampleNode sampleWorld).err
      = some "invalid encapsulation IP provided \"bogus\"" :=
  ⟨by decide, by decide, rfl,
   (setupOVNNode_invalid_encap_ip sampleUtil sampleConfigBadIP sampleNode sampleWorld
      (by decide) (by decide)).2.1,
   (setupOVNNode_invalid_encap_ip sampleUtil sampleConfigBadIP sampleNode sampleWorld
      (by decide) (by decide)).2.2.2 "node1.local" rfl⟩

/-- C2: when the hostname lookup, the choice of the node IP and the
`ovs-vsctl` call succeed: with `EncapPort = DefaultEncapPort` the `ovs-vsctl`
call is the only call made (no chassis query, no `ovn-sbctl`), the run returns
nil and leaves the world the `ovs-vsctl` runner left; with a different port and
a successful chassis lookup the calls are the `ovs-vsctl` call, the chassis
query and then exactly one `ovn-sbctl` call with arguments
`set encap <systemID> options:dst_port=<EncapPort>`, the world left is the one
the `ovn-sbctl` runner leaves when run with these arguments on the world the
chassis query left, and the error returned is that runner's error, wrapped
(nil when it is nil). -/
theorem setupOVNNode_encap_port {σ : Type} (U : Util σ) (cfg : Config) (node : Node) (w : σ)
    (nodeName nodeIP : String)
    (hhost : U.GetNodeHostname node = .ok nodeName)
    (hip : (cfg.Default.EncapIP = "" ∧ U.GetNodeIP node = .ok nodeIP) ∨
      (cfg.Default.EncapIP ≠ "" ∧ U.ParseIP cfg.Default.EncapIP ≠ none ∧
        nodeIP = cfg.Default.EncapIP))
    (hvs : (U.RunOVSVsctl (ovsVsctlArgs cfg nodeIP nodeName) w).1.err = none) :
    (cfg.Default.EncapPort = cfg.DefaultEncapPort →
      (setupOVNNode U cfg node w).calls =
        [Call.RunOVSVsctl (ovsVsctlArgs cfg nodeIP nodeName)] ∧
      (setupOVNNode U cfg node w).err = none ∧
      (setupOVNNode U cfg node w).world =
        (U.RunOVSVsctl (ovsVsctlArgs cfg nodeIP nodeName) w).2) ∧
    (cfg.Default.EncapPort ≠ cfg.DefaultEncapPort →
      ∀ systemID,
        (U.GetNodeChassisID (U.RunOVSVsctl (ovsVsctlArgs cfg nodeIP nodeName) w).2).1
          = .ok systemID →
        (setupOVNNode U cfg node w).calls =
          [Call.RunOVSVsctl (ovsVsctlArgs cfg nodeIP nodeName),
           Call.GetNodeChassisID,
           Call.RunOVNSbctl ["set", "encap", systemID,
             "options:dst_port=" ++ fmtD cfg.Default.EncapPort]] ∧
        (setupOVNNode U cfg node w).world =
          (U.RunOVNSbctl
            ["set", "encap", systemID, "options:dst_port=" ++ fmtD cfg.Default.EncapPort]
            (U.GetNodeChassisID
              (U.RunOVSVsctl (ovsVsctlArgs cfg nodeIP nodeName) w).2).2).2 ∧
        (setupOVNNode U cfg node w).err =
          (U.RunOVNSbctl
            ["set", "encap", systemID, "options:dst_port=" ++ fmtD cfg.Default.EncapPort]
            (U.GetNodeChassisID
              (U.RunOVSVsctl (ovsVsctlArgs cfg nodeIP nodeName) w).2).2).1.err.map
            (fun errSet => "error setting OVS encap-port: " ++ errSet ++ "\n  " ++
              U.fmtQ (U.RunOVNSbctl
                ["set", "encap", systemID, "options:dst_port=" ++ fmtD cfg.Default.EncapPort]
                (U.GetNodeChassisID
                  (U.RunOVSVsctl (ovsVsctlArgs cfg nodeIP nodeName) w).2).2).1.stderr)) := by
  have hrun : setupOVNNode U cfg node w = setupOVNNodeCommands U cfg nodeName nodeIP w := by
    rcases setupOVNNode_split U cfg node w with ⟨_, _, _, hno⟩ | ⟨n, i, hn, hi, heq⟩
    · exact absurd ⟨nodeName, nodeIP, hhost, hip⟩ hno
    · rw [hhost] at hn
      injection hn with hn
      rw [heq, ← hn, NodeIPChosen_unique U cfg node i nodeIP hi hip]
  rw [hrun]
  refine ⟨fun hp => ?_, fun hp systemID hc => ?_⟩
  · rw [setupOVNNodeCommands_default_port U cfg nodeName nodeIP w hvs hp]
    exact ⟨rfl, rfl, rfl⟩
  · exact ⟨(setupOVNNodeCommands_sbctl U cfg nodeName nodeIP w systemID hvs hp hc).1,
      (setupOVNNodeCommands_sbctl_run U cfg nodeName nodeIP w systemID hvs hp hc).1,
      (setupOVNNodeCommands_sbctl_run U cfg nodeName nodeIP w systemID hvs hp hc).2⟩

/-- C2 at concrete inputs: the sample node with `EncapIP = "10.1.2.3"` and
`EncapPort = 7000`, on the healthy sample world (both commands ran with their
argument lists, nil returned) and on a world whose `ovn-sbctl` fails (both
commands ran, the wrapped error returned). -/
theorem setupOVNNode_encap_port_witness :
    ((setupOVNNode sampleUtil sampleConfigPort sampleNode sampleWorld).calls =
      [Call.RunOVSVsctl (ovsVsctlArgs sampleConfigPort "10.1.2.3" "node1.local"),
       Call.GetNodeChassisID,
       Call.RunOVNSbctl ["set", "encap", "chassis-1", "options:dst_port=7000"]] ∧
     (setupOVNNode sampleUtil sampleConfigPort sampleNode sampleWorld).world =
       { sampleWorld with
         ran := [ovsVsctlArgs sampleConfigPort "10.1.2.3" "node1.local",
                 ["set", "encap", "chassis-1", "options:dst_port=7000"]] } ∧
     (setupOVNNode sampleUtil sampleConfigPort sampleNode sampleWorld).err = none) ∧
    ((setupOVNNode sampleUtil sampleConfigPort sampleNode sampleWorldSbctlFails).calls =
      [Call.RunOVSVsctl (ovsVsctlArgs sampleConfigPort "10.1.2.3" "node1.local"),
       Call.GetNodeChassisID,
       Call.RunOVNSbctl ["set", "encap", "chassis-1", "options:dst_port=7000"]] ∧
     (setupOVNNode sampleUtil sampleConfigPort sampleNode sampleWorldSbctlFails).world =
       { sampleWorldSbctlFails with
         ran := [ovsVsctlArgs sampleConfigPort "10.1.2.3" "node1.local",
                 ["set", "encap", "chassis-1", "options:dst_port=7000"]] } ∧
     (setupOVNNode sampleUtil sampleConfigPort sampleNode sampleWorldSbctlFails).err =
       some "error setting OVS encap-port: exit status 1\n  \"ovn-sbctl: no row\"") :=
  ⟨(setupOVNNode_encap_port sampleUtil sampleConfigPort sampleNode sampleWorld
      "node1.local" "10.1.2.3" rfl (Or.inr ⟨by decide, by decide, rfl⟩) rfl).2
      (by decide) "chassis-1" rfl,
   (setupOVNNode_encap_port sampleUtil sampleConfigPort sampleNode sampleWorldSbctlFails
      "node1.local" "10.1.2.3" rfl (Or.inr ⟨by decide, by decide, rfl⟩) rfl).2
      (by decide) "chassis-1" rfl⟩

/-- C3: one run of `setupOVNNode` makes at most one `ovs-vsctl` call and at
most one `ovn-sbctl` call; and when the `ovs-vsctl` call it makes returns an
error, `setupOVNNode` returns the error "error setting OVS external IDs"
carrying that error and the quoted stderr text, and the `ovs-vsctl` call is the
only call made (no chassis query, no `ovn-sbctl`). -/
theorem setupOVNNode_no_retry {σ : Type} (U : Util σ) (cfg : Config) (node : Node) (w : σ) :
    ((setupOVNNode U cfg node w).calls.filter Call.isVsctl).length ≤ 1 ∧
    ((setupOVNNode U cfg node w).calls.filter Call.isSbctl).length ≤ 1 ∧
    (∀ args e, Call.RunOVSVsctl args ∈ (setupOVNNode U cfg node w).calls →
      (U.RunOVSVsctl args w).1.err = some e →
      (setupOVNNode U cfg node w).err =
        some ("error setting OVS external IDs: " ++ e ++ "\n  " ++
          U.fmtQ (U.RunOVSVsctl args w).1.stderr) ∧
      (setupOVNNode U cfg node w).calls = [Call.RunOVSVsctl args]) := by
  rcases setupOVNNode_split U cfg node w with ⟨_, hc, _, _⟩ | ⟨n, i, _, _, heq⟩
  · rw [hc]; simp
  · rw [heq]
    obtain ⟨rest, hcalls, hv, hs⟩ := setupOVNNodeCommands_calls U cfg n i w
    refine ⟨?_, ?_, ?_⟩
    · rw [hcalls]; simp [List.filter, Call.isVsctl, hv]
    · rw [hcalls]; simpa [List.filter, Call.isSbctl] using hs
    · intro args e hmem herr
      have hargs : args = ovsVsctlArgs cfg i n := by
        rw [hcalls] at hmem
        rcases List.mem_cons.mp hmem with h | h
        · injection h
        · have : Call.RunOVSVsctl args ∈ rest.filter Call.isVsctl :=
            List.mem_filter.mpr ⟨h, rfl⟩
          rw [hv] at this
          exact absurd this (List.not_mem_nil _)
      subst hargs
      rw [setupOVNNodeCommands_vsctl_error U cfg n i w e herr]
      exact ⟨rfl, rfl⟩

/-- C3 at a concrete input: the sample node on a world whose `ovs-vsctl`
fails, with a non-default port. -/
theorem setupOVNNode_no_retry_witness :
    (setupOVNNode sampleUtil sampleConfigPort sampleNode sampleWorldBroken).err =
      some ("error setting OVS external IDs: exit status 1\n  " ++
        "\"ovs-vsctl: database connection failed\"") ∧
    (setupOVNNode sampleUtil sampleConfigPort sampleNode sampleWorldBroken).calls =
      [Call.RunOVSVsctl (ovsVsctlArgs sampleConfigPort "10.1.2.3" "node1.local")] :=
  (setupOVNNode_no_retry sampleUtil sampleConfigPort sampleNode sampleWorldBroken).2.2
    (ovsVsctlArgs sampleConfigPort "10.1.2.3" "node1.local") "exit status 1"
    (by decide) rfl


/-- C9: every `ovs-vsctl` call of a run of `setupOVNNode` has exactly the
eight arguments `set`, `Open_vSwitch`, `.`, the encapsulation type, the
encapsulation IP, the two probe intervals in decimal and the quoted hostname,
in this order, where the IP is the configured `EncapIP` string itself when it
is non-empty and the answer of `GetNodeIP` when it is empty; and it is with
this argument list, on the world the run started from, that the `ovs-vsctl`
runner is run: its error is the one returned, wrapped, and its world the one
left; when it succeeds with the default port the run returns nil on the world
it left; and otherwise the chassis query and the `ovn-sbctl` runner continue
from the world it left. -/
theorem setupOVNNode_vsctl_args {σ : Type} (U : Util σ) (cfg : Config) (node : Node) (w : σ)
    (args : List String) (hcall : Call.RunOVSVsctl args ∈ (setupOVNNode U cfg node w).calls) :
    ∃ nodeName nodeIP,
      U.GetNodeHostname node = .ok nodeName ∧
      ((cfg.Default.EncapIP ≠ "" ∧ nodeIP = cfg.Default.EncapIP) ∨
       (cfg.Default.EncapIP = "" ∧ U.GetNodeIP node = .ok nodeIP)) ∧
      args =
        ["set", "Open_vSwitch", ".",
         "external_ids:ovn-encap-type=" ++ cfg.Default.EncapType,
         "external_ids:ovn-encap-ip=" ++ nodeIP,
         "external_ids:ovn-remote-probe-interval=" ++ toString cfg.Default.InactivityProbe,
         "external_ids:ovn-openflow-probe-interval=" ++ toString cfg.Default.OpenFlowProbe,
         "external_ids:hostname=\"" ++ nodeName ++ "\""] ∧
      (∀ e, (U.RunOVSVsctl args w).1.err = some e →
        (setupOVNNode U cfg node w).err =
          some ("error setting OVS external IDs: " ++ e ++ "\n  " ++
            U.fmtQ (U.RunOVSVsctl args w).1.stderr) ∧
        (setupOVNNode U cfg node w).world = (U.RunOVSVsctl args w).2) ∧
      ((U.RunOVSVsctl args w).1.err = none →
        cfg.Default.EncapPort = cfg.DefaultEncapPort →
        (setupOVNNode U cfg node w).err = none ∧
        (setupOVNNode U cfg node w).world = (U.RunOVSVsctl args w).2) ∧
      ((U.RunOVSVsctl args w).1.err = none →
        cfg.Default.EncapPort ≠ cfg.DefaultEncapPort →
        (∀ e, (U.GetNodeChassisID (U.RunOVSVsctl args w).2).1 = .error e →
          (setupOVNNode U cfg node w).err = some e ∧
          (setupOVNNode U cfg node w).world =
            (U.GetNodeChassisID (U.RunOVSVsctl args w).2).2) ∧
        (∀ systemID, (U.GetNodeChassisID (U.RunOVSVsctl args w).2).1 = .ok systemID →
          (setupOVNNode U cfg node w).world =
            (U.RunOVNSbctl
              ["set", "encap", systemID, "options:dst_port=" ++ fmtD cfg.Default.EncapPort]
              (U.GetNodeChassisID (U.RunOVSVsctl args w).2).2).2 ∧
          (setupOVNNode U cfg node w).err =
            (U.RunOVNSbctl
              ["set", "encap", systemID, "options:dst_port=" ++ fmtD cfg.Default.EncapPort]
              (U.GetNodeChassisID (U.RunOVSVsctl args w).2).2).1.err.map
              (fun errSet => "error setting OVS encap-port: " ++ errSet ++ "\n  " ++
                U.fmtQ (U.RunOVNSbctl
                  ["set", "encap", systemID,
                   "options:dst_port=" ++ fmtD cfg.Default.EncapPort]
                  (U.GetNodeChassisID (U.RunOVSVsctl args w).2).2).1.stderr))) := by
  rcases setupOVNNode_split U cfg node w with ⟨_, hc, _, _⟩ | ⟨n, i, hn, hi, heq⟩
  · rw [hc] at hcall
    exact absurd hcall (List.not_mem_nil _)
  · rw [heq] at hcall
    obtain ⟨rest, hcalls, hv, _⟩ := setupOVNNodeCommands_calls U cfg n i w
    have hargs : args = ovsVsctlArgs cfg i n := by
      rw [hcalls] at hcall
      rcases List.mem_cons.mp hcall with h | h
      · injection h
      · have : Call.RunOVSVsctl args ∈ rest.filter Call.isVsctl :=
          List.mem_filter.mpr ⟨h, rfl⟩
        rw [hv] at this
        exact absurd this (List.not_mem_nil _)
    refine ⟨n, i, hn, ?_, hargs, ?_, ?_, ?_⟩
    · rcases hi with ⟨h1, h2⟩ | ⟨h1, _, h3⟩
      · exact Or.inr ⟨h1, h2⟩
      · exact Or.inl ⟨h1, h3⟩
    · intro e he
      rw [hargs] at he ⊢
      rw [heq, setupOVNNodeCommands_vsctl_error U cfg n i w e he]
      exact ⟨rfl, rfl⟩
    · intro he hp
      rw [hargs] at he ⊢
      rw [heq, setupOVNNodeCommands_default_port U cfg n i w he hp]
      exact ⟨rfl, rfl⟩
    · intro he hp
      rw [hargs] at he ⊢
      refine ⟨fun e hce => ?_, fun systemID hcs => ?_⟩
      · rw [heq, setupOVNNodeCommands_chassis_error U cfg n i w e he hp hce]
        exact ⟨rfl, rfl⟩
      · rw [heq]
        exact setupOVNNodeCommands_sbctl_run U cfg n i w systemID he hp hcs

/-- C9 at a concrete input: the sample node with `EncapIP = "10.1.2.3"` on a
world whose `ovs-vsctl` fails: the run logs the call with the eight arguments,
the world records that the runner received exactly them, and the error is the
wrapped error of the runner. -/
theorem setupOVNNode_vsctl_args_witness :
    Call.RunOVSVsctl
        ["set", "Open_vSwitch", ".", "external_ids:ovn-encap-type=geneve",
         "external_ids:ovn-encap-ip=10.1.2.3", "external_ids:ovn-remote-probe-interval=100000",
         "external_ids:ovn-openflow-probe-interval=180",
         "external_ids:hostname=\"node1.local\""] ∈
      (setupOVNNode sampleUtil sampleConfigPort sampleNode sampleWorldBroken).calls ∧
    (setupOVNNode sampleUtil sampleConfigPort sampleNode sampleWorldBroken).world =
      { sampleWorldBroken with
        ran := [["set", "Open_vSwitch", ".", "external_ids:ovn-encap-type=geneve",
                 "external_ids:ovn-encap-ip=10.1.2.3",
                 "external_ids:ovn-remote-probe-interval=100000",
                 "external_ids:ovn-openflow-probe-interval=180",
                 "external_ids:hostname=\"node1.local\""]] } ∧
    (setupOVNNode sampleUtil sampleConfigPort sampleNode sampleWorldBroken).err =
      some ("error setting OVS external IDs: exit status 1\n  " ++
        "\"ovs-vsctl: database connection failed\"") :=
  ⟨by decide,
   Exists.elim
     (setupOVNNode_vsctl_args sampleUtil sampleConfigPort sampleNode sampleWorldBroken
       ["set", "Open_vSwitch", ".", "external_ids:ovn-encap-type=geneve",
        "external_ids:ovn-encap-ip=10.1.2.3", "external_ids:ovn-remote-probe-interval=100000",
        "external_ids:ovn-openflow-probe-interval=180",
        "external_ids:hostname=\"node1.local\""] (by decide))
     (fun _ h => Exists.elim h (fun _ h' => (h'.2.2.2.1 "exit status 1" rfl).2)),
   Exists.elim
     (setupOVNNode_vsctl_args sampleUtil sampleConfigPort sampleNode sampleWorldBroken
       ["set", "Open_vSwitch", ".", "external_ids:ovn-encap-type=geneve",
        "external_ids:ovn-encap-ip=10.1.2.3", "external_ids:ovn-remote-probe-interval=100000",
        "external_ids:ovn-openflow-probe-interval=180",
        "external_ids:hostname=\"node1.local\""] (by decide))
     (fun _ h => Exists.elim h (fun _ h' => (h'.2.2.2.1 "exit status 1" rfl).1))⟩

/-- C10: `setupOVNNode` returns nil exactly when the hostname lookup succeeds,
the node IP is obtained (`EncapIP` empty and `GetNodeIP` succeeds, or `EncapIP`
non-empty and parsing), the `ovs-vsctl` call succeeds, and either the port is
the default one or the chassis lookup and the `ovn-sbctl` call both succeed.
A failed hostname lookup, and a failed `GetNodeIP` when `EncapIP` is empty,
give an error with no call made. -/
theorem setupOVNNode_nil_iff {σ : Type} (U : Util σ) (cfg : Config) (node : Node) (w : σ) :
    ((setupOVNNode U cfg node w).err = none ↔
      ∃ nodeName nodeIP,
        U.GetNodeHostname node = .ok nodeName ∧
        ((cfg.Default.EncapIP = "" ∧ U.GetNodeIP node = .ok nodeIP) ∨
         (cfg.Default.EncapIP ≠ "" ∧ U.ParseIP cfg.Default.EncapIP ≠ none ∧
           nodeIP = cfg.Default.EncapIP)) ∧
        (U.RunOVSVsctl (ovsVsctlArgs cfg nodeIP nodeName) w).1.err = none ∧
        (cfg.Default.EncapPort = cfg.DefaultEncapPort ∨
         ∃ systemID,
           (U.GetNodeChassisID (U.RunOVSVsctl (ovsVsctlArgs cfg nodeIP nodeName) w).2).1
             = .ok systemID ∧
           (U.RunOVNSbctl
              ["set", "encap", systemID, "options:dst_port=" ++ fmtD cfg.Default.EncapPort]
              (U.GetNodeChassisID
                (U.RunOVSVsctl (ovsVsctlArgs cfg nodeIP nodeName) w).2).2).1.err = none)) ∧
    (∀ e, U.GetNodeHostname node = .error e →
      (setupOVNNode U cfg node w).err ≠ none ∧ (setupOVNNode U cfg node w).calls = []) ∧
    (∀ e, cfg.Default.EncapIP = "" → U.GetNodeIP node = .error e →
      (setupOVNNode U cfg node w).err ≠ none ∧ (setupOVNNode U cfg node w).calls = []) := by
  refine ⟨?_, ?_, ?_⟩
  · rcases setupOVNNode_split U cfg node w with ⟨he, _, _, hno⟩ | ⟨n, i, hn, hi, heq⟩
    · constructor
      · intro h; exact absurd h he
      · rintro ⟨nodeName, nodeIP, h1, h2, _⟩
        exact absurd ⟨nodeName, nodeIP, h1, h2⟩ hno
    · have key : (setupOVNNodeCommands U cfg n i w).err = none ↔
          ((U.RunOVSVsctl (ovsVsctlArgs cfg i n) w).1.err = none ∧
          (cfg.Default.EncapPort = cfg.DefaultEncapPort ∨
           ∃ systemID,
             (U.GetNodeChassisID (U.RunOVSVsctl (ovsVsctlArgs cfg i n) w).2).1
               = .ok systemID ∧
             (U.RunOVNSbctl
                ["set", "encap", systemID, "options:dst_port=" ++ fmtD cfg.Default.EncapPort]
                (U.GetNodeChassisID
                  (U.RunOVSVsctl (ovsVsctlArgs cfg i n) w).2).2).1.err = none)) := by
        cases hv : (U.RunOVSVsctl (ovsVsctlArgs cfg i n) w).1.err with
        | some e =>
          rw [setupOVNNodeCommands_vsctl_error U cfg n i w e hv]
          simp
        | none =>
          by_cases hp : cfg.Default.EncapPort = cfg.DefaultEncapPort
          · rw [setupOVNNodeCommands_default_port U cfg n i w hv hp]
            simp [hp]
          · cases hc : (U.GetNodeChassisID (U.RunOVSVsctl (ovsVsctlArgs cfg i n) w).2).1 with
            | error e =>
              rw [setupOVNNodeCommands_chassis_error U cfg n i w e hv hp hc]
              simp [hp]
            | ok systemID =>
              rw [(setupOVNNodeCommands_sbctl U cfg n i w systemID hv hp hc).2]
              simp [hp, ovnSbctlArgs]
      rw [heq, key]
      constructor
      · rintro ⟨h1, h2⟩
        exact ⟨n, i, hn, hi, h1, h2⟩
      · rintro ⟨nodeName, nodeIP, h1, h2, h3, h4⟩
        have e1 : n = nodeName := by rw [hn] at h1; injection h1
        have e2 : i = nodeIP := NodeIPChosen_unique U cfg node i nodeIP hi h2
        subst e1; subst e2
        exact ⟨h3, h4⟩
  · intro e he
    unfold setupOVNNode
    simp [he]
  · intro e hip hg
    unfold setupOVNNode
    cases hh : U.GetNodeHostname node with
    | error e => simp
    | ok nodeName => simp [hip, hg]

end Cluster

namespace Ovn

/-! ## Properties of the namespace controller -/

@[simp]
theorem exec_issued {σ : Type} (D : Driver σ) (cmd : NbCmd) (c : Controller σ) :
    (c.exec D cmd).2.issued = c.issued ++ [cmd] := rfl

@[simp]
theorem exec_records {σ : Type} (D : Driver σ) (cmd : NbCmd) (c : Controller σ) :
    (c.exec D cmd).2.records = c.records := rfl

@[simp]
theorem exec_world {σ : Type} (D : Driver σ) (cmd : NbCmd) (c : Controller σ) :
    (c.exec D cmd).2.world = (D cmd c.world).2 := rfl

@[simp]
theorem exec_result {σ : Type} (D : Driver σ) (cmd : NbCmd) (c : Controller σ) :
    (c.exec D cmd).1 = (D cmd c.world).1 := rfl

/-- The commands `ensureExists` adds: the query by hashed name, and a `create`
when the query succeeds with an empty answer. -/
theorem ensureExists_issued {σ : Type} (D : Driver σ) (ns : String) (c : Controller σ) :
    (ensureExists D ns c).issued =
      c.issued ++ [.findUuid (hashedAddressSet ns)] ++
        (if (D (.findUuid (hashedAddressSet ns)) c.world).1.err = none ∧
            (D (.findUuid (hashedAddressSet ns)) c.world).1.stdout = ""
          then [NbCmd.create (hashedAddressSet ns) ns] else []) := by
  unfold ensureExists
  by_cases h : (D (.findUuid (hashedAddressSet ns)) c.world).1.err = none ∧
      (D (.findUuid (hashedAddressSet ns)) c.world).1.stdout = ""
  · simp [h]
  · simp [h]

@[simp]
theorem ensureExists_records {σ : Type} (D : Driver σ) (ns : String)
    (c : Controller σ) : (ensureExists D ns c).records = c.records := by
  simp only [ensureExists]
  split <;> rfl

/-- The command `setMembership` adds: a `clear` for no addresses, a `set`
otherwise. -/
theorem setMembership_issued {σ : Type} (D : Driver σ) (ns : String) (ips : List String)
    (c : Controller σ) :
    (setMembership D ns ips c).issued =
      c.issued ++ [if ips = [] then NbCmd.clear (hashedAddressSet ns)
                   else NbCmd.set (hashedAddressSet ns) ips] := by
  unfold setMembership
  split <;> rfl

@[simp]
theorem setMembership_records {σ : Type} (D : Driver σ) (ns : String)
    (ips : List String) (c : Controller σ) : (setMembership D ns ips c).records = c.records := by
  unfold setMembership
  split <;> rfl

/-- Handling an event only adds commands to those issued. -/
theorem handle_issued_extends {σ : Type} (D : Driver σ) (ev : Event) (c : Controller σ) :
    ∃ more, (handle D ev c).issued = c.issued ++ more := by
  cases ev with
  | namespaceAdd ns pods =>
    simp only [handle, addNamespace]
    rw [setMembership_issued, ensureExists_issued]
    exact ⟨_, by simp only [List.append_assoc]; rfl⟩
  | namespaceDelete ns =>
    simp only [handle, deleteNamespace]
    split
    · exact ⟨[], by simp⟩
    · exact ⟨[.destroy (hashedAddressSet ns)], rfl⟩
  | podSet p =>
    simp only [handle, setPod, removePod]
    split
    · exact ⟨[], by simp⟩
    · split
      · split
        · exact ⟨[], by simp⟩
        · split
          · rw [setMembership_issued]; exact ⟨_, rfl⟩
          · exact ⟨[], by simp⟩
      · split
        · exact ⟨[], by simp⟩
        · rw [setMembership_issued]; exact ⟨_, rfl⟩
  | podDelete p =>
    simp only [handle, removePod]
    split
    · exact ⟨[], by simp⟩
    · split
      · rw [setMembership_issued]; exact ⟨_, rfl⟩
      · exact ⟨[], by simp⟩

/-- A started controller has issued the discovery query first. -/
theorem Reachable.issued_head {σ : Type} {D : Driver σ} {w : σ} {c : Controller σ}
    (h : Reachable D w c) : ∃ rest, c.issued = NbCmd.findExternalIds :: rest := by
  induction h with
  | start => exact ⟨[], rfl⟩
  | step ev c _ ih =>
    obtain ⟨rest, hr⟩ := ih
    obtain ⟨more, hm⟩ := handle_issued_extends D ev c
    exact ⟨rest ++ more, by rw [hm, hr]; rfl⟩

/-- Events handled from a reachable state lead to a reachable state. -/
theorem Reachable.handleAll {σ : Type} {D : Driver σ} {w : σ} (evs : List Event)
    {c : Controller σ} (h : Reachable D w c) : Reachable D w (handleAll D evs c) := by
  induction evs generalizing c with
  | nil => exact h
  | cons ev evs ih => exact ih (Reachable.step ev c h)

/-- The states of startup reconciliation are reachable, and the last listed namespace
is observed by a namespace add on the state the others left. -/
theorem WatchNamespaces_snoc {σ : Type} (D : Driver σ) (nss : List Namespace) (n : Namespace)
    (pods : List Pod) (w : σ) :
    Reachable D w (WatchNamespaces D nss pods w) ∧
    WatchNamespaces D (nss ++ [n]) pods w =
      handle D (.namespaceAdd n.Name pods) (WatchNamespaces D nss pods w) := by
  constructor
  · exact Reachable.handleAll _ Reachable.start
  · simp [WatchNamespaces, Ovn.handleAll, List.foldl_append]

/-- The synchronized pod facts of a namespace none of whose listed pods has an
IP are empty. -/
theorem syncPods_nil (ns : String) (pods : List Pod)
    (hz : ∀ p ∈ pods, p.Namespace = ns → p.PodIP = "") : syncPods ns pods = [] := by
  unfold syncPods
  have : pods.filter (fun p => p.Namespace = ns ∧ p.PodIP ≠ "") = [] := by
    rw [List.filter_eq_nil_iff]
    intro p hp
    simp only [decide_eq_true_eq, not_and, not_not]
    exact hz p hp
  rw [this]
  rfl


/-- The record of a namespace after it was added. -/
theorem addNamespace_findRecord {σ : Type} (D : Driver σ) (ns : String) (pods : List Pod)
    (c : Controller σ) :
    (addNamespace D ns pods c).findRecord ns = some { name := ns, pods := syncPods ns pods } := by
  simp only [addNamespace, Controller.findRecord, setMembership_records, ensureExists_records]
  rw [List.find?_append]
  have : List.find? (fun r => decide (r.name = ns))
      (List.filter (fun x => decide (x.name ≠ ns)) c.records) = none := by
    rw [List.find?_eq_none]
    intro x hx
    have := (List.mem_filter.mp hx).2
    simpa using this
  rw [this]
  simp

/-- The commands a namespace add issues: the query by hashed name, a `create`
when the query finds nothing, and the membership command. -/
theorem addNamespace_issued {σ : Type} (D : Driver σ) (ns : String) (pods : List Pod)
    (c : Controller σ) :
    (addNamespace D ns pods c).issued =
      c.issued ++ [.findUuid (hashedAddressSet ns)] ++
        (if (D (.findUuid (hashedAddressSet ns)) c.world).1.err = none ∧
            (D (.findUuid (hashedAddressSet ns)) c.world).1.stdout = ""
          then [NbCmd.create (hashedAddressSet ns) ns] else []) ++
        [if (syncPods ns pods).map Prod.snd = [] then NbCmd.clear (hashedAddressSet ns)
         else NbCmd.set (hashedAddressSet ns) ((syncPods ns pods).map Prod.snd).dedup] := by
  simp only [addNamespace]
  rw [setMembership_issued, ensureExists_issued]
  simp [NamespaceRecord.podIPs]

/-- C4: at startup with one namespace, one pod of it with an IP, and the
address set already in the store (the query by hashed name answers a non-empty
result), startup reconciliation followed by `WatchNamespaces` issues exactly
three commands, in order: the find of the external ids, the find of `_uuid` by
the hashed name, and the `set` of the addresses to the pod IP; the command
lines are those `addCmdsWithPods` expects, the membership held is exactly the
pod IP, and no `create`, `clear` or `destroy` is issued. -/
theorem WatchNamespaces_with_pod {σ : Type} (D : Driver σ) (w : σ) (n : Namespace) (p : Pod)
    (hns : p.Namespace = n.Name) (hip : p.PodIP ≠ "")
    (hexists :
      (D (.findUuid (hashedAddressSet n.Name)) (D .findExternalIds w).2).1.stdout ≠ "") :
    (WatchNamespaces D [n] [p] w).issued =
      [.findExternalIds, .findUuid (hashedAddressSet n.Name),
       .set (hashedAddressSet n.Name) [p.PodIP]] ∧
    (WatchNamespaces D [n] [p] w).issued.map NbCmd.line =
      ["ovn-nbctl --timeout=15 --data=bare --no-heading --columns=external_ids find address_set",
       "ovn-nbctl --timeout=15 --data=bare --no-heading --columns=_uuid find address_set name="
         ++ hashedAddressSet n.Name,
       "ovn-nbctl --timeout=15 set address_set " ++ hashedAddressSet n.Name ++
         " addresses=\"" ++ p.PodIP ++ "\""] ∧
    (WatchNamespaces D [n] [p] w).membership n.Name = [p.PodIP] := by
  have hsync : syncPods n.Name [p] = [(p.Name, p.PodIP)] := by
    simp [syncPods, hns, hip, trackPod]
  have hissued : (WatchNamespaces D [n] [p] w).issued =
      [.findExternalIds, .findUuid (hashedAddressSet n.Name),
       .set (hashedAddressSet n.Name) [p.PodIP]] := by
    simp only [WatchNamespaces, handleAll, List.map, List.foldl, handle]
    rw [addNamespace_issued, hsync]
    simp [start, hexists]
  refine ⟨hissued, ?_, ?_⟩
  · rw [hissued]
    have e : ∀ x : String, " addresses=" ++ ("\"" ++ x) = " addresses=\"" ++ x := by
      intro x
      rw [← String.append_assoc]
      rfl
    simp only [List.map, NbCmd.line, quoteIPs, String.intercalate, String.intercalate.go]
    simp [String.append_assoc, e]
  · simp only [WatchNamespaces, handleAll, List.map, List.foldl, handle, Controller.membership]
    rw [addNamespace_findRecord, hsync]
    simp [NamespaceRecord.podIPs]

/-- C4 at the input of the test "reconciles an existing namespace with pods":
the fake loaded by `addCmdsWithPods`, namespace `namespace1`, pod IP
`10.128.1.4`. -/
theorem WatchNamespaces_with_pod_witness :
    (WatchNamespaces fakeDriver [namespaceT] [tPod]
        (FakeState.load (addCmdsWithPods [] tP namespaceT))).issued =
      [.findExternalIds, .findUuid (hashedAddressSet "namespace1"),
       .set (hashedAddressSet "namespace1") ["10.128.1.4"]] ∧
    (WatchNamespaces fakeDriver [namespaceT] [tPod]
        (FakeState.load (addCmdsWithPods [] tP namespaceT))).membership "namespace1" =
      ["10.128.1.4"] :=
  ⟨(WatchNamespaces_with_pod fakeDriver (FakeState.load (addCmdsWithPods [] tP namespaceT))
      namespaceT tPod rfl (by decide) (by decide)).1,
   (WatchNamespaces_with_pod fakeDriver (FakeState.load (addCmdsWithPods [] tP namespaceT))
      namespaceT tPod rfl (by decide) (by decide)).2.2⟩


/-- The store after a namespace add. -/
theorem addNamespace_world {σ : Type} (D : Driver σ) (ns : String) (pods : List Pod)
    (c : Controller σ) :
    (addNamespace D ns pods c).world =
      (D (if (syncPods ns pods).map Prod.snd = [] then NbCmd.clear (hashedAddressSet ns)
          else NbCmd.set (hashedAddressSet ns) ((syncPods ns pods).map Prod.snd).dedup)
        (if (D (.findUuid (hashedAddressSet ns)) c.world).1.err = none ∧
            (D (.findUuid (hashedAddressSet ns)) c.world).1.stdout = ""
          then (D (.create (hashedAddressSet ns) ns)
            (D (.findUuid (hashedAddressSet ns)) c.world).2).2
          else (D (.findUuid (hashedAddressSet ns)) c.world).2)).2 := by
  simp only [addNamespace, setMembership, ensureExists, NamespaceRecord.podIPs]
  by_cases h1 : (D (.findUuid (hashedAddressSet ns)) c.world).1.err = none ∧
      (D (.findUuid (hashedAddressSet ns)) c.world).1.stdout = ""
  · by_cases h2 : (syncPods ns pods).map Prod.snd = []
    · simp [h1, h2]
    · simp [h1, h2]
  · by_cases h2 : (syncPods ns pods).map Prod.snd = []
    · simp [h1, h2]
    · simp [h1, h2]

/-- Looking up a set after the addresses of the sets of that name were
replaced. -/
theorem Store.lookup_map (s : Store) (h : String) (ips : List String) :
    Store.lookup (s.map (fun a => if a.name = h then { a with addresses := ips } else a)) h =
      (s.lookup h).map (fun a => { a with addresses := ips }) := by
  induction s with
  | nil => rfl
  | cons a s ih =>
    simp only [Store.lookup] at ih ⊢
    by_cases ha : a.name = h
    · simp [List.find?, ha]
    · simp [List.find?, ha, ih]

/-- Looking up a set that was just appended to a store without it. -/
theorem Store.lookup_append (s : Store) (h ns : String) (hs : s.lookup h = none) :
    Store.lookup (s ++ [{ name := h, nsName := ns, addresses := [] }]) h =
      some { name := h, nsName := ns, addresses := [] } := by
  simp only [Store.lookup] at hs ⊢
  rw [List.find?_append, hs]
  simp

/-- On the reference store, a namespace added without pod IPs leaves its
address set in the store, with no addresses. -/
theorem addNamespace_store_empty (ns : String) (pods : List Pod) (c : Controller Store)
    (hz : syncPods ns pods = []) :
    ∃ a, (addNamespace storeDriver ns pods c).world.lookup (hashedAddressSet ns) = some a ∧
      a.addresses = [] := by
  rw [addNamespace_world, hz]
  simp only [List.map_nil, if_true]
  cases hl : c.world.lookup (hashedAddressSet ns) with
  | none =>
    have hnew := Store.lookup_append c.world (hashedAddressSet ns) ns hl
    simp only [storeDriver, hl, okResult, and_self, if_true, hnew]
    rw [Store.lookup_map, hnew]
    exact ⟨_, rfl, rfl⟩
  | some a =>
    have hne : ("uuid-" ++ a.name ++ "\n" : String) ≠ "" := by
      intro h
      have := congrArg String.length h
      simp only [String.length_append] at this
      have h5 : "uuid-".length = 5 := by decide
      have h0 : "".length = 0 := by decide
      omega
    simp only [storeDriver, hl, okResult, hne, and_false, if_false]
    rw [Store.lookup_map, hl]
    exact ⟨_, rfl, rfl⟩

/-- C5: a namespace observed with zero pod IPs, at startup or by a namespace-add
event of a started controller, has its membership written by
`clear address_set <hashed name> addresses`: the commands the observation adds
are the query by hashed name, a `create` when the set is absent, and the
`clear`, after the discovery query that opened the run; no `destroy` and no
`set` is among them, and the membership held is empty. On the reference store
the address set then exists with no addresses. -/
theorem namespace_without_pods_cleared :
    (∀ (σ : Type) (D : Driver σ) (w : σ) (c : Controller σ) (ns : String) (pods : List Pod),
      Reachable D w c → (∀ p ∈ pods, p.Namespace = ns → p.PodIP = "") →
      ∃ before created,
        c.issued = NbCmd.findExternalIds :: before ∧
        (created = [] ∨ created = [NbCmd.create (hashedAddressSet ns) ns]) ∧
        (handle D (.namespaceAdd ns pods) c).issued =
          c.issued ++ [.findUuid (hashedAddressSet ns)] ++ created ++
            [.clear (hashedAddressSet ns)] ∧
        NbCmd.line (.clear (hashedAddressSet ns)) =
          "ovn-nbctl --timeout=15 clear address_set " ++ hashedAddressSet ns ++ " addresses" ∧
        (handle D (.namespaceAdd ns pods) c).membership ns = []) ∧
    (∀ (s : Store) (c : Controller Store) (ns : String) (pods : List Pod),
      Reachable storeDriver s c → (∀ p ∈ pods, p.Namespace = ns → p.PodIP = "") →
      ∃ a, (handle storeDriver (.namespaceAdd ns pods) c).world.lookup (hashedAddressSet ns)
          = some a ∧ a.addresses = []) := by
  constructor
  · intro σ D w c ns pods hr hz
    obtain ⟨before, hb⟩ := hr.issued_head
    have hs := syncPods_nil ns pods hz
    refine ⟨before,
      (if (D (.findUuid (hashedAddressSet ns)) c.world).1.err = none ∧
          (D (.findUuid (hashedAddressSet ns)) c.world).1.stdout = ""
        then [NbCmd.create (hashedAddressSet ns) ns] else []), hb, ?_, ?_, rfl, ?_⟩
    · split
      · exact Or.inr rfl
      · exact Or.inl rfl
    · simp only [handle]
      rw [addNamespace_issued, hs]
      simp
    · simp only [handle, Controller.membership]
      rw [addNamespace_findRecord, hs]
      rfl
  · intro s c ns pods _ hz
    exact addNamespace_store_empty ns pods c (syncPods_nil ns pods hz)

/-- C5 at the input of the test "reconciles an existing namespace without
pods": the fake loaded by `addCmds`, namespace `namespace1`, no pods. -/
theorem namespace_without_pods_cleared_witness :
    ∃ before created,
      (start fakeDriver (FakeState.load (addCmds [] namespaceT))).issued =
        NbCmd.findExternalIds :: before ∧
      (created = [] ∨ created = [NbCmd.create (hashedAddressSet "namespace1") "namespace1"]) ∧
      (handle fakeDriver (.namespaceAdd "namespace1" [])
          (start fakeDriver (FakeState.load (addCmds [] namespaceT)))).issued =
        (start fakeDriver (FakeState.load (addCmds [] namespaceT))).issued ++
          [.findUuid (hashedAddressSet "namespace1")] ++ created ++
          [.clear (hashedAddressSet "namespace1")] ∧
      NbCmd.line (.clear (hashedAddressSet "namespace1")) =
        "ovn-nbctl --timeout=15 clear address_set " ++ hashedAddressSet "namespace1" ++
          " addresses" ∧
      (handle fakeDriver (.namespaceAdd "namespace1" [])
          (start fakeDriver (FakeState.load (addCmds [] namespaceT)))).membership "namespace1"
        = [] :=
  namespace_without_pods_cleared.1 FakeState fakeDriver (FakeState.load (addCmds [] namespaceT))
    (start fakeDriver (FakeState.load (addCmds [] namespaceT))) "namespace1" []
    Reachable.start (by simp)

/-- C6: a namespace-delete event for an active namespace causes exactly one
further command, `--if-exists destroy address_set <hashed name>`, keyed by the
same hashed name as at creation; the record is discarded, and later pod events
for the namespace are dropped without any command. -/
theorem namespaceDelete_destroys {σ : Type} (D : Driver σ) (c : Controller σ) (ns : String)
    (r : NamespaceRecord) (hact : c.findRecord ns = some r) :
    (handle D (.namespaceDelete ns) c).issued =
      c.issued ++ [.destroy (hashedAddressSet ns)] ∧
    NbCmd.line (.destroy (hashedAddressSet ns)) =
      "ovn-nbctl --timeout=15 --if-exists destroy address_set " ++ hashedAddressSet ns ∧
    (handle D (.namespaceDelete ns) c).findRecord ns = none ∧
    (∀ p : Pod, p.Namespace = ns →
      handle D (.podSet p) (handle D (.namespaceDelete ns) c) =
        handle D (.namespaceDelete ns) c ∧
      handle D (.podDelete p) (handle D (.namespaceDelete ns) c) =
        handle D (.namespaceDelete ns) c) := by
  have hrun : handle D (.namespaceDelete ns) c =
      destroy D ns { c with records := c.records.filter (fun x => x.name ≠ ns) } := by
    simp only [handle, deleteNamespace, hact]
  have hgone : (handle D (.namespaceDelete ns) c).findRecord ns = none := by
    rw [hrun]
    simp only [destroy, Controller.findRecord, exec_records]
    rw [List.find?_eq_none]
    intro x hx
    have := (List.mem_filter.mp hx).2
    simpa using this
  refine ⟨?_, rfl, hgone, ?_⟩
  · rw [hrun]
    simp only [destroy, exec_issued]
  · intro p hp
    subst hp
    constructor
    · simp only [handle] at hgone ⊢
      simp only [setPod, hgone]
    · simp only [handle] at hgone ⊢
      simp only [removePod, hgone]

/-- C6 at the input of the test "reconciles a deleted namespace without pods": namespace
`namespace1` after startup reconciliation. -/
theorem namespaceDelete_destroys_witness :
    (handle fakeDriver (.namespaceDelete "namespace1")
        (WatchNamespaces fakeDriver [namespaceT] []
          (FakeState.load (addCmds [] namespaceT)))).issued =
      [.findExternalIds, .findUuid (hashedAddressSet "namespace1"),
       .clear (hashedAddressSet "namespace1"), .destroy (hashedAddressSet "namespace1")] :=
  (namespaceDelete_destroys fakeDriver
    (WatchNamespaces fakeDriver [namespaceT] [] (FakeState.load (addCmds [] namespaceT)))
    "namespace1" { name := "namespace1", pods := [] } (by decide)).1


/-! ### Pod facts -/

theorem mem_trackPod (pods : List (String × String)) (name ip : String) (q : String × String) :
    q ∈ trackPod pods name ip ↔ (q ∈ pods ∧ q.1 ≠ name) ∨ q = (name, ip) := by
  simp [trackPod, List.mem_filter]

theorem mem_untrackPod (pods : List (String × String)) (name : String) (q : String × String) :
    q ∈ untrackPod pods name ↔ q ∈ pods ∧ q.1 ≠ name := by
  simp [untrackPod, List.mem_filter]

/-- Finding the record of a namespace after its pod facts were changed. -/
theorem find_updatePods (records : List NamespaceRecord) (ns : String)
    (f : List (String × String) → List (String × String)) :
    (updatePods records ns f).find? (fun r => r.name = ns) =
      (records.find? (fun r => r.name = ns)).map (fun r => { r with pods := f r.pods }) := by
  induction records with
  | nil => rfl
  | cons r rs ih =>
    simp only [updatePods, List.map_cons] at ih ⊢
    by_cases hr : r.name = ns
    · simp [List.find?, hr]
    · simp [List.find?, hr, ih]

/-- The record of a namespace after one of its pods was removed: the facts of
that pod are gone, the others stay. -/
theorem removePod_findRecord {σ : Type} (D : Driver σ) (ns name : String) (c : Controller σ)
    (r : NamespaceRecord) (hact : c.findRecord ns = some r) :
    (removePod D ns name c).findRecord ns =
      some { r with pods := untrackPod r.pods name } := by
  simp only [removePod, hact]
  split
  · simp only [Controller.findRecord, setMembership_records] at hact ⊢
    rw [find_updatePods, hact]
    rfl
  · rename_i hnone
    rw [hact]
    have : untrackPod r.pods name = r.pods := by
      unfold untrackPod
      rw [List.filter_eq_self]
      intro q hq
      simp only [Bool.not_eq_true, List.any_eq_false, decide_eq_false_iff_not,
        List.any_eq_true, decide_eq_true_eq, not_exists, not_and] at hnone
      simpa using hnone q hq
    rw [this]

/-- The command a pod removal issues when the pod is tracked: the recomputed
membership, written by `set`, or by `clear` when it is empty. -/
theorem removePod_issued {σ : Type} (D : Driver σ) (ns name : String) (c : Controller σ)
    (r : NamespaceRecord) (hact : c.findRecord ns = some r)
    (htracked : ∃ q ∈ r.pods, q.1 = name) :
    (removePod D ns name c).issued =
      c.issued ++
        [if (removePod D ns name c).membership ns = [] then NbCmd.clear (hashedAddressSet ns)
         else NbCmd.set (hashedAddressSet ns) ((removePod D ns name c).membership ns)] := by
  have hm : (removePod D ns name c).membership ns =
      ({ r with pods := untrackPod r.pods name } : NamespaceRecord).podIPs := by
    simp only [Controller.membership, removePod_findRecord D ns name c r hact]
  rw [hm]
  have hany : r.pods.any (fun q => q.1 = name) = true := by
    simpa using htracked
  simp only [removePod, hact, hany, if_true]
  rw [setMembership_issued]
  simp only [Controller.membership, Controller.findRecord]
  rw [find_updatePods]
  simp only [Controller.findRecord] at hact
  rw [hact]
  rfl

/-- The record of a namespace after one of its pods was set to an IP: the pod
holds that IP, and the facts of the other pods stay. -/
theorem setPod_findRecord {σ : Type} (D : Driver σ) (p : Pod) (c : Controller σ)
    (r : NamespaceRecord) (hact : c.findRecord p.Namespace = some r) (hip : p.PodIP ≠ "") :
    ∃ r', (setPod D p c).findRecord p.Namespace = some r' ∧
      (p.Name, p.PodIP) ∈ r'.pods ∧
      (∀ q : String × String, q.1 ≠ p.Name → (q ∈ r'.pods ↔ q ∈ r.pods)) := by
  simp only [setPod, hact, hip, if_false]
  split
  · rename_i hmem
    exact ⟨r, hact, hmem, fun _ _ => Iff.rfl⟩
  · refine ⟨{ r with pods := trackPod r.pods p.Name p.PodIP }, ?_, ?_, ?_⟩
    · simp only [Controller.findRecord, setMembership_records] at hact ⊢
      rw [find_updatePods, hact]
      rfl
    · exact (mem_trackPod _ _ _ _).mpr (Or.inr rfl)
    · intro q hq
      rw [mem_trackPod]
      constructor
      · rintro (⟨h, _⟩ | h)
        · exact h
        · exact absurd (by rw [h]) hq
      · intro h
        exact Or.inl ⟨h, hq⟩

/-- Membership of an IP in the set of a namespace, in terms of its record. -/
theorem mem_membership {σ : Type} (c : Controller σ) (ns : String) (r : NamespaceRecord)
    (hact : c.findRecord ns = some r) (a : String) :
    a ∈ c.membership ns ↔ ∃ q ∈ r.pods, q.2 = a := by
  simp only [Controller.membership, hact, NamespaceRecord.podIPs, List.mem_dedup, List.mem_map]

/-- C8, as stated, fails: namespace `namespace1` is active with a pod `p3` at
`10.0.0.5`; the distinct pods `p1` and `p2` are added at `10.0.0.5` and then
deleted one after the other, and the membership still contains `10.0.0.5`. -/
theorem shared_ip_third_pod_keeps_ip :
    "10.0.0.5" ∈
      (handleAll storeDriver
        [.podSet ⟨"namespace1", "p1", "node1", "10.0.0.5"⟩,
         .podSet ⟨"namespace1", "p2", "node1", "10.0.0.5"⟩,
         .podDelete ⟨"namespace1", "p1", "node1", "10.0.0.5"⟩,
         .podDelete ⟨"namespace1", "p2", "node1", "10.0.0.5"⟩]
        (WatchNamespaces storeDriver [namespaceT]
          [⟨"namespace1", "p3", "node1", "10.0.0.5"⟩] [])).membership "namespace1" := by
  decide

/-- C8, amended: in an active namespace, for two distinct pods reporting the
same IP `a`: after both pod-add events the membership contains `a` exactly
once; deleting the first issues a `set` whose addresses, the membership, still
contain `a`; after then deleting the second the membership no longer contains
`a` exactly when no other pod of the namespace held `a`. -/
theorem shared_ip {σ : Type} (D : Driver σ) (c : Controller σ) (ns : String)
    (r : NamespaceRecord) (p1 p2 node1 node2 a : String)
    (hact : c.findRecord ns = some r) (hne : p1 ≠ p2) (ha : a ≠ "") :
    ((handleAll D [.podSet ⟨ns, p1, node1, a⟩, .podSet ⟨ns, p2, node2, a⟩] c).membership
      ns).count a = 1 ∧
    (∃ ips,
      (handleAll D [.podSet ⟨ns, p1, node1, a⟩, .podSet ⟨ns, p2, node2, a⟩,
          .podDelete ⟨ns, p1, node1, a⟩] c).issued =
        (handleAll D [.podSet ⟨ns, p1, node1, a⟩, .podSet ⟨ns, p2, node2, a⟩] c).issued ++
          [.set (hashedAddressSet ns) ips] ∧
      a ∈ ips ∧
      ips = (handleAll D [.podSet ⟨ns, p1, node1, a⟩, .podSet ⟨ns, p2, node2, a⟩,
          .podDelete ⟨ns, p1, node1, a⟩] c).membership ns) ∧
    (a ∉ (handleAll D [.podSet ⟨ns, p1, node1, a⟩, .podSet ⟨ns, p2, node2, a⟩,
          .podDelete ⟨ns, p1, node1, a⟩, .podDelete ⟨ns, p2, node2, a⟩] c).membership ns ↔
      ∀ q ∈ r.pods, q.1 ≠ p1 → q.1 ≠ p2 → q.2 ≠ a) := by
  simp only [handleAll, List.foldl, handle]
  obtain ⟨r1, h1, m1, o1⟩ := setPod_findRecord D ⟨ns, p1, node1, a⟩ c r hact ha
  obtain ⟨r2, h2, m2, o2⟩ := setPod_findRecord D ⟨ns, p2, node2, a⟩ _ r1 h1 ha
  simp only at h1 m1 o1 h2 m2 o2
  have m12 : (p1, a) ∈ r2.pods := (o2 (p1, a) hne).mpr m1
  have h3 := removePod_findRecord D ns p1 _ r2 h2
  have h4 := removePod_findRecord D ns p2 _ _ h3
  have m3 : (p2, a) ∈ untrackPod r2.pods p1 :=
    (mem_untrackPod _ _ _).mpr ⟨m2, fun h => hne h.symm⟩
  refine ⟨?_, ?_, ?_⟩
  · rw [Controller.membership, h2]
    simp only [NamespaceRecord.podIPs, List.count_dedup]
    rw [if_pos]
    exact List.mem_map.mpr ⟨(p2, a), m2, rfl⟩
  · have hin : a ∈ (removePod D ns p1
        (setPod D ⟨ns, p2, node2, a⟩ (setPod D ⟨ns, p1, node1, a⟩ c))).membership ns :=
      (mem_membership _ ns _ h3 a).mpr ⟨(p2, a), m3, rfl⟩
    refine ⟨_, ?_, hin, rfl⟩
    rw [removePod_issued D ns p1 _ r2 h2 ⟨(p1, a), m12, rfl⟩]
    rw [if_neg (List.ne_nil_of_mem hin)]
  · rw [mem_membership _ ns _ h4 a]
    simp only [mem_untrackPod]
    constructor
    · intro hno q hq hq1 hq2 hqa
      have hq' : q ∈ r2.pods := (o2 q hq2).mpr ((o1 q hq1).mpr hq)
      exact hno ⟨q, ⟨⟨hq', hq1⟩, hq2⟩, hqa⟩
    · rintro hall ⟨q, ⟨⟨hq, hq1⟩, hq2⟩, hqa⟩
      have hq' : q ∈ r.pods := (o1 q hq1).mp ((o2 q hq2).mp hq)
      exact hall q hq' hq1 hq2 hqa

/-- C8, amended, at a concrete input: namespace `namespace1` with pods `p1` and
`p2` at `10.0.0.5` and no other pod. -/
theorem shared_ip_witness :
    "10.0.0.5" ∉
      (handleAll storeDriver
        [.podSet ⟨"namespace1", "p1", "node1", "10.0.0.5"⟩,
         .podSet ⟨"namespace1", "p2", "node1", "10.0.0.5"⟩,
         .podDelete ⟨"namespace1", "p1", "node1", "10.0.0.5"⟩,
         .podDelete ⟨"namespace1", "p2", "node1", "10.0.0.5"⟩]
        (WatchNamespaces storeDriver [namespaceT] [] [])).membership "namespace1" :=
  (shared_ip storeDriver (WatchNamespaces storeDriver [namespaceT] [] []) "namespace1"
    { name := "namespace1", pods := [] } "p1" "p2" "node1" "node1" "10.0.0.5"
    (by decide) (by decide) (by decide)).2.2.mpr (by simp)


/-! ## The tests of `namespace_test.go`, run on the model -/

/-- The test "reconciles an existing namespace with pods": after startup
reconciliation the commands called are those `addCmdsWithPods` expects. -/
theorem test_existing_namespace_with_pods :
    (WatchNamespaces fakeDriver [namespaceT] [tPod]
      (FakeState.load (addCmdsWithPods [] tP namespaceT))).world.CalledMatchesExpected
      = true := by
  decide

/-- The test "reconciles an existing namespace without pods": after startup
reconciliation the commands called are those `addCmds` expects. -/
theorem test_existing_namespace_without_pods :
    (WatchNamespaces fakeDriver [namespaceT] []
      (FakeState.load (addCmds [] namespaceT))).world.CalledMatchesExpected = true := by
  decide

/-- The test "reconciles a deleted namespace without pods": the commands of
`addCmds` are called at startup, and after `delCmds` is loaded and the namespace
is deleted, the `destroy` it expects. -/
theorem test_deleted_namespace_without_pods :
    (WatchNamespaces fakeDriver [namespaceT] []
      (FakeState.load (addCmds [] namespaceT))).world.CalledMatchesExpected = true ∧
    (handle fakeDriver (.namespaceDelete namespaceT.Name)
      (expectMore
        (WatchNamespaces fakeDriver [namespaceT] [] (FakeState.load (addCmds [] namespaceT)))
        (fun fexec => delCmds fexec namespaceT))).world.CalledMatchesExpected = true := by
  decide

end Ovn
